import Mathlib

/-!
Shallow embedding of the MIFARE Classic sector access tool
(src/utils/nfc-mfra.c) and verification of its specification.

Bytes are natural numbers (all values stay below 256 on real inputs),
16-byte blocks are byte lists, and the card images `mtKeys` / `mtDump`
are functions from a block index to a block.  External NFC calls
(`nfc_initiator_mifare_cmd`, `nfc_initiator_select_passive_target`,
`nfc_device_set_property_bool`, `transmit_bits` / `transmit_bytes`) are
abstracted by oracle environments fixing the outcome of each call, and
every model records which commands were issued in a trace, so that
claims about command ordering and abort points can be stated.

All unsigned C arithmetic used here stays far below 2^32 on the modelled
domains, so plain `Nat` arithmetic agrees with the `uint32_t` source
arithmetic; the one place where C subtraction could wrap
(`iTrailerBlock - SECTOR_SIZE + 1`) is written `iTrailerBlock + 1 -
SECTOR_SIZE`, which gives the same value the C computation produces.
-/

namespace NfcMfra

/-- `SECTOR_SIZE` from the source. -/
def SECTOR_SIZE : Nat := 4

/-- `is_first_block(uiBlock)` from the source: small sectors have 4
blocks, the big sectors (from block 128 on) have 16. -/
def is_first_block (uiBlock : Nat) : Bool :=
  if uiBlock < 128 then uiBlock % 4 == 0 else uiBlock % 16 == 0

/-- `is_trailer_block(uiBlock)` from the source. -/
def is_trailer_block (uiBlock : Nat) : Bool :=
  if uiBlock < 128 then (uiBlock + 1) % 4 == 0 else (uiBlock + 1) % 16 == 0

/-- `get_trailer_block(uiFirstBlock)` from the source. -/
def get_trailer_block (uiFirstBlock : Nat) : Nat :=
  if uiFirstBlock < 128 then uiFirstBlock + (3 - uiFirstBlock % 4)
  else uiFirstBlock + (15 - uiFirstBlock % 16)

/-- Spec-side helper: index of the sector containing a block (sectors
0..31 have 4 blocks, sectors from 32 on have 16 blocks).  Used only to
state "the trailer of the sector containing f". -/
def sector_of_block (b : Nat) : Nat :=
  if b < 128 then b / 4 else 32 + (b - 128) / 16

/-- Key-A field of a 16-byte block under the trailer view
(`mbt.abtKeyA`, bytes 0..5 of the `mifare_classic_block` union). -/
def keyAOf (b : List Nat) : List Nat := b.take 6

/-- Access-bits field (`mbt.abtAccessBits`, bytes 6..9). -/
def accessBitsOf (b : List Nat) : List Nat := (b.drop 6).take 4

/-- Key-B field (`mbt.abtKeyB`, bytes 10..15). -/
def keyBOf (b : List Nat) : List Nat := (b.drop 10).take 6

/-- `memcpy(blk.mbt.abtKeyA, k, 6)` on a 16-byte block, for a 6-byte `k`. -/
def setKeyA (b k : List Nat) : List Nat := k ++ b.drop 6

/-- `memcpy(blk.mbt.abtKeyB, k, 6)` on a 16-byte block, for a 6-byte `k`. -/
def setKeyB (b k : List Nat) : List Nat := b.take 10 ++ k

/-- The built-in key dictionary (`static uint8_t keys[]`), grouped into
its nine 6-byte candidates (`num_keys = sizeof(keys)/6 = 9`). -/
def keys : List (List Nat) :=
  [[0xff, 0xff, 0xff, 0xff, 0xff, 0xff],
   [0xd3, 0xf7, 0xd3, 0xf7, 0xd3, 0xf7],
   [0xa0, 0xa1, 0xa2, 0xa3, 0xa4, 0xa5],
   [0xb0, 0xb1, 0xb2, 0xb3, 0xb4, 0xb5],
   [0x4d, 0x3a, 0x99, 0xc3, 0x51, 0xdd],
   [0x1a, 0x98, 0x2c, 0x7e, 0x45, 0x9a],
   [0xaa, 0xbb, 0xcc, 0xdd, 0xee, 0xff],
   [0x00, 0x00, 0x00, 0x00, 0x00, 0x00],
   [0xab, 0xcd, 0xef, 0x12, 0x34, 0x56]]

/-- `num_keys` from the source. -/
def num_keys : Nat := keys.length

/-- The i-th candidate of the dictionary (`keys + (key_index * 6)`). -/
def keyAt (i : Nat) : List Nat := keys.getD i []

/-- Events of a single `authenticate` call: one MIFARE AUTH command with
a candidate key, or one anticollision re-selection
(`nfc_initiator_select_passive_target`). -/
inductive AuthEv
  | attempt (key : List Nat)
  | reselect
  deriving DecidableEq

/-- Environment of an `authenticate` call: the relevant globals
(`bUseKeyA`, `bUseKeyFile`, `mtKeys`) plus an oracle `cmdOk` fixing, for
a block and a key, whether `nfc_initiator_mifare_cmd(pnd, MC_AUTH_x,
block, &mp)` succeeds with that key loaded. -/
structure AuthEnv where
  bUseKeyA : Bool
  bUseKeyFile : Bool
  mtKeys : Nat → List Nat
  cmdOk : Nat → List Nat → Bool

/-- Result of an `authenticate` call: the C `bool` return value, the
(possibly updated) global `mtKeys`, and the issued-command trace. -/
structure AuthResult where
  ok : Bool
  store : Nat → List Nat
  trace : List AuthEv

/-- `memcpy(mtKeys.amb[blk].mbt.abtKeyA/B, &mp.mpa.abtKey, 6)`: record a
discovered key in the key image, at block index `blk`. -/
def storeKey (useA : Bool) (store : Nat → List Nat) (blk : Nat) (key : List Nat) :
    Nat → List Nat :=
  fun n =>
    if n = blk then (if useA then setKeyA (store blk) key else setKeyB (store blk) key)
    else store n

/-- The key-guessing loop of `authenticate` (the `else` branch): try the
candidates in dictionary order; on success record the key into `mtKeys`
at index `uiBlock` and return; on failure redo the anticollision (whose
own result is not checked by the source) and move on. -/
def guessLoop (env : AuthEnv) (uiBlock : Nat) : List (List Nat) → AuthResult
  | [] => ⟨false, env.mtKeys, []⟩
  | k :: rest =>
    if env.cmdOk uiBlock k then
      ⟨true, storeKey env.bUseKeyA env.mtKeys uiBlock k, [AuthEv.attempt k]⟩
    else
      let r := guessLoop env uiBlock rest
      ⟨r.ok, r.store, AuthEv.attempt k :: AuthEv.reselect :: r.trace⟩

/-- The key `authenticate` extracts from the key file in key-file mode:
the A or B key stored at the trailer block of `uiBlock`'s sector
(`mtKeys.amb[uiTrailerBlock].mbt.abtKeyA/B`). -/
def keyFileKey (env : AuthEnv) (uiBlock : Nat) : List Nat :=
  if env.bUseKeyA then keyAOf (env.mtKeys (get_trailer_block uiBlock))
  else keyBOf (env.mtKeys (get_trailer_block uiBlock))

/-- `authenticate(uiBlock)` from the source.  In key-file mode the key
is taken from `mtKeys` at the trailer block of `uiBlock`'s sector and a
single attempt is made; otherwise the dictionary is swept. -/
def authenticate (env : AuthEnv) (uiBlock : Nat) : AuthResult :=
  if env.bUseKeyFile then
    if env.cmdOk uiBlock (keyFileKey env uiBlock) then
      ⟨true, env.mtKeys, [AuthEv.attempt (keyFileKey env uiBlock)]⟩
    else ⟨false, env.mtKeys, [AuthEv.attempt (keyFileKey env uiBlock)]⟩
  else
    guessLoop env uiBlock keys

/-- Discriminates AUTH attempts from re-selections in a trace. -/
def isAttempt : AuthEv → Bool
  | AuthEv.attempt _ => true
  | AuthEv.reselect => false

/-- Number of MIFARE AUTH commands in an `authenticate` trace. -/
def countAttempts (t : List AuthEv) : Nat := t.countP isAttempt

/-- Number of anticollision re-selections in an `authenticate` trace. -/
def countReselects (t : List AuthEv) : Nat := t.countP (fun e => !isAttempt e)

/-- The trace left by a run of failed candidates: one AUTH attempt and
one re-selection per candidate. -/
def attemptReselectTrace (cs : List (List Nat)) : List AuthEv :=
  cs.flatMap (fun k => [AuthEv.attempt k, AuthEv.reselect])

/-- Outcomes of the external calls made by `unlock_card`: the four
`nfc_device_set_property_bool` calls (CRC off, easy framing off, CRC on,
easy framing on), the HALT `transmit_bytes`, the 7-bit unlock
`transmit_bits` and the 1-byte unlock `transmit_bytes`. -/
structure UnlockEnv where
  crcOffOk : Bool
  framingOffOk : Bool
  haltOk : Bool
  unlock1Ok : Bool
  unlock2Ok : Bool
  crcOnOk : Bool
  framingOnOk : Bool

/-- Events of an `unlock_card` run. -/
inductive UEv
  | cfgCrc (v : Bool)
  | cfgFraming (v : Bool)
  | txHalt
  | txUnlock1
  | txUnlock2
  deriving DecidableEq

/-- `unlock_card()` from the source: immediate failure on a magic2 card;
otherwise raw mode is configured, HALT is transmitted (its result is not
checked by the source), the two unlock frames are sent, and standard
framing is restored.  Returns the C `bool` plus the issued-call trace. -/
def unlock_card (magic2 : Bool) (env : UnlockEnv) : Bool × List UEv :=
  if magic2 then (false, [])
  else if !env.crcOffOk then (false, [UEv.cfgCrc false])
  else if !env.framingOffOk then (false, [UEv.cfgCrc false, UEv.cfgFraming false])
  else
    let t : List UEv := [UEv.cfgCrc false, UEv.cfgFraming false, UEv.txHalt]
    if !env.unlock1Ok then (false, t ++ [UEv.txUnlock1])
    else if !env.unlock2Ok then (false, t ++ [UEv.txUnlock1, UEv.txUnlock2])
    else if !env.crcOnOk then
      (false, t ++ [UEv.txUnlock1, UEv.txUnlock2, UEv.cfgCrc true])
    else if !env.framingOnOk then
      (false, t ++ [UEv.txUnlock1, UEv.txUnlock2, UEv.cfgCrc true, UEv.cfgFraming true])
    else (true, t ++ [UEv.txUnlock1, UEv.txUnlock2, UEv.cfgCrc true, UEv.cfgFraming true])

/-- Tag-facing events of a `read_sector` / `write_sector` run: an
anticollision re-selection, an `authenticate` call (modelled above, its
outcome abstracted by the sector oracle), an `MC_READ` command, or an
`MC_WRITE` command with the 16-byte payload placed in `mp.mpd.abtData`. -/
inductive SEv
  | evSelect
  | evAuth (b : Nat)
  | evRead (b : Nat)
  | evWrite (b : Nat) (data : List Nat)
  deriving DecidableEq

/-- Environment of a sector operation: the relevant globals
(`bTolerateFailures`, `magic2`, `mtKeys`) and oracles for the outcome of
each external call: the unlock handshake sub-environment, the
re-selection after a failure, the `authenticate` call at a block, and
the MC_READ / MC_WRITE command at a block (with the data a successful
read returns). -/
structure SectorEnv where
  bTolerateFailures : Bool
  magic2 : Bool
  unlockEnv : UnlockEnv
  selectOk : Bool
  authOk : Nat → Bool
  readOk : Nat → Bool
  readData : Nat → List Nat
  writeOk : Nat → Bool
  mtKeys : Nat → List Nat

/-- Result of a sector operation: the C `bool` return value, the block
counter printed by `print_success_or_failure`, the (possibly updated)
`mtDump` image, and the issued-command trace. -/
structure SectorResult where
  ok : Bool
  count : Nat
  dump : Nat → List Nat
  trace : List SEv

/-- The block sequence of the descending `read_sector` loop
(`for (iBlock = iTrailerBlock; iBlock >= iFirstDataBlock; iBlock--)`). -/
def blockRangeDesc (first trailer : Nat) : List Nat :=
  (List.range (trailer + 1 - first)).map (fun i => trailer - i)

/-- The block sequence of the ascending `write_sector` loop
(`for (uiBlock = iFirstDataBlock; uiBlock <= iTrailerBlock; uiBlock++)`). -/
def blockRangeAsc (first trailer : Nat) : List Nat :=
  (List.range (trailer + 1 - first)).map (fun i => first + i)

/-- The body of the `read_sector` loop, one recursive step per block of
the descending sequence, threading `bFailure`, the read counter and the
`mtDump` image exactly as the source does. -/
def readLoop (env : SectorEnv) (read_unlocked : Bool) :
    List Nat → Bool → Nat → (Nat → List Nat) → SectorResult
  | [], _, cnt, dump => ⟨true, cnt, dump, []⟩
  | iBlock :: rest, bFailure, cnt, dump =>
    if is_trailer_block iBlock then
      -- after an earlier failure the anticollision must be redone;
      -- if it fails the tag was removed and the whole read aborts
      if bFailure && !env.selectOk then ⟨false, cnt, dump, [SEv.evSelect]⟩
      else
        let selT : List SEv := if bFailure then [SEv.evSelect] else []
        if !read_unlocked && !env.authOk iBlock then
          ⟨false, cnt, dump, selT ++ [SEv.evAuth iBlock]⟩
        else
          let authT : List SEv := if read_unlocked then [] else [SEv.evAuth iBlock]
          if env.readOk iBlock then
            let dump' : Nat → List Nat :=
              if read_unlocked then
                fun n => if n = iBlock then env.readData iBlock else dump n
              else
                -- keys come from the key image, access bits from the card
                fun n =>
                  if n = iBlock then
                    keyAOf (env.mtKeys iBlock) ++ accessBitsOf (env.readData iBlock) ++
                      keyBOf (env.mtKeys iBlock)
                  else dump n
            let r := readLoop env read_unlocked rest false (cnt + 1) dump'
            ⟨r.ok, r.count, r.dump, selT ++ authT ++ SEv.evRead iBlock :: r.trace⟩
          else
            if !env.bTolerateFailures then
              ⟨false, cnt, dump, selT ++ authT ++ [SEv.evRead iBlock]⟩
            else
              let r := readLoop env read_unlocked rest true cnt dump
              ⟨r.ok, r.count, r.dump, selT ++ authT ++ SEv.evRead iBlock :: r.trace⟩
    else
      if !bFailure then
        if env.readOk iBlock then
          let dump' : Nat → List Nat :=
            fun n => if n = iBlock then env.readData iBlock else dump n
          let r := readLoop env read_unlocked rest false (cnt + 1) dump'
          ⟨r.ok, r.count, r.dump, SEv.evRead iBlock :: r.trace⟩
        else
          if !env.bTolerateFailures then ⟨false, cnt, dump, [SEv.evRead iBlock]⟩
          else
            let r := readLoop env read_unlocked rest true cnt dump
            ⟨r.ok, r.count, r.dump, SEv.evRead iBlock :: r.trace⟩
      else
        -- an earlier readout failed: the block is skipped, no read issued
        if !env.bTolerateFailures then ⟨false, cnt, dump, []⟩
        else
          let r := readLoop env read_unlocked rest bFailure cnt dump
          ⟨r.ok, r.count, r.dump, r.trace⟩

/-- `read_sector(iSector, read_unlocked)` from the source.
`iTrailerBlock - SECTOR_SIZE + 1` is written `+ 1 - SECTOR_SIZE`, which
agrees with the C `int32_t` value (`4 * iSector`) for every sector. -/
def read_sector (env : SectorEnv) (iSector : Nat) (read_unlocked : Bool)
    (dump : Nat → List Nat) : SectorResult :=
  let iTrailerBlock := (iSector + 1) * 4 - 1
  let iFirstDataBlock := iTrailerBlock + 1 - SECTOR_SIZE
  if read_unlocked && !(unlock_card env.magic2 env.unlockEnv).1 then
    ⟨false, 0, dump, []⟩
  else
    readLoop env read_unlocked (blockRangeDesc iFirstDataBlock iTrailerBlock) false 0 dump

/-- The BCC test of `write_sector` on a block-0 buffer:
`abtData[0] ^ abtData[1] ^ abtData[2] ^ abtData[3] ^ abtData[4]`. -/
def xor5 (d : List Nat) : Nat :=
  (((d.getD 0 0 ^^^ d.getD 1 0) ^^^ d.getD 2 0) ^^^ d.getD 3 0) ^^^ d.getD 4 0

/-- The 16-byte buffer `write_sector` assembles for a trailer block:
key A, access bits and key B from the dump image, in that order. -/
def trailerData (dump : Nat → List Nat) (b : Nat) : List Nat :=
  keyAOf (dump b) ++ accessBitsOf (dump b) ++ keyBOf (dump b)

/-- Result of one iteration body of the `write_sector` loop: abort the
whole operation (`return false`), `continue` without printing a result
symbol, or fall through to `print_success_or_failure` with the new
`bFailure` and the commands issued by the body. -/
inductive BodyOut
  | abort
  | skip
  | step (bFailure : Bool) (t : List SEv)
  deriving DecidableEq

/-- The per-block body of the `write_sector` loop, after the
authentication header: trailer blocks are always written (assembled from
the dump's key/access fields); block 0 is skipped unless unlocking or a
magic2 card is present; a data block is written only if no earlier
failure occurred, and a block-0 buffer with a bad BCC aborts before the
write is issued. -/
def writeBody (env : SectorEnv) (write_block_zero : Bool) (dump : Nat → List Nat)
    (uiBlock : Nat) (bFailure : Bool) : BodyOut :=
  if is_trailer_block uiBlock then
    if !env.writeOk uiBlock then
      BodyOut.step true [SEv.evWrite uiBlock (trailerData dump uiBlock)]
    else BodyOut.step bFailure [SEv.evWrite uiBlock (trailerData dump uiBlock)]
  else
    if uiBlock == 0 && !write_block_zero && !env.magic2 then BodyOut.skip
    else if !bFailure then
      if uiBlock == 0 && !(xor5 (dump uiBlock) == 0) && !env.magic2 then BodyOut.abort
      else if env.writeOk uiBlock then
        BodyOut.step bFailure [SEv.evWrite uiBlock (dump uiBlock)]
      else BodyOut.step true [SEv.evWrite uiBlock (dump uiBlock)]
    else BodyOut.step bFailure []

/-- The `write_sector` loop, one recursive step per block of the
ascending sequence: the group header (re-selection after a failure and
per-group authentication, both triggered on `is_first_block`), then the
body, then `print_success_or_failure` and the failure-tolerance test. -/
def writeLoop (env : SectorEnv) (write_block_zero : Bool) (dump : Nat → List Nat) :
    List Nat → Bool → Nat → SectorResult
  | [], _, cnt => ⟨true, cnt, dump, []⟩
  | uiBlock :: rest, bFailure, cnt =>
    if is_first_block uiBlock && bFailure && !env.selectOk then
      ⟨false, cnt, dump, [SEv.evSelect]⟩
    else
      let selT : List SEv := if is_first_block uiBlock && bFailure then [SEv.evSelect] else []
      let bF1 := if is_first_block uiBlock then false else bFailure
      if is_first_block uiBlock && !write_block_zero && !env.authOk uiBlock then
        ⟨false, cnt, dump, selT ++ [SEv.evAuth uiBlock]⟩
      else
        let authT : List SEv :=
          if is_first_block uiBlock && !write_block_zero then [SEv.evAuth uiBlock] else []
        match writeBody env write_block_zero dump uiBlock bF1 with
        | BodyOut.abort => ⟨false, cnt, dump, selT ++ authT⟩
        | BodyOut.skip =>
          let r := writeLoop env write_block_zero dump rest bF1 cnt
          ⟨r.ok, r.count, r.dump, selT ++ authT ++ r.trace⟩
        | BodyOut.step bF2 t =>
          let cnt' := if bF2 then cnt else cnt + 1
          if !env.bTolerateFailures && bF2 then ⟨false, cnt', dump, selT ++ authT ++ t⟩
          else
            let r := writeLoop env write_block_zero dump rest bF2 cnt'
            ⟨r.ok, r.count, r.dump, selT ++ authT ++ t ++ r.trace⟩

/-- `write_sector(iSector, write_block_zero)` from the source. -/
def write_sector (env : SectorEnv) (iSector : Nat) (write_block_zero : Bool)
    (dump : Nat → List Nat) : SectorResult :=
  let iTrailerBlock := (iSector + 1) * 4 - 1
  let iFirstDataBlock := iTrailerBlock + 1 - SECTOR_SIZE
  if write_block_zero && !(unlock_card env.magic2 env.unlockEnv).1 then
    ⟨false, 0, dump, []⟩
  else
    writeLoop env write_block_zero dump (blockRangeAsc iFirstDataBlock iTrailerBlock) false 0

/-- The two actions that reach the sector loop of `main`. -/
inductive MainAction
  | actRead
  | actWrite
  deriving DecidableEq

/-- `EXIT_SUCCESS`. -/
def EXIT_SUCCESS : Nat := 0

/-- `EXIT_FAILURE`. -/
def EXIT_FAILURE : Nat := 1

/-- Environment of the sector loop of `main`: the sector-operation
environment, the unlock flag, and the outcomes of opening and writing
the dump file after a successful sector read. -/
structure MainEnv where
  senv : SectorEnv
  unlock : Bool
  dumpOpenOk : Bool
  dumpWriteOk : Bool

/-- The sector loop at the end of `main` (the `for` over `lSector`),
returning the process exit code.  For a read, a failed `read_sector`
merely skips the dump-file write and the loop continues; for a write,
the result of `write_sector` is discarded.  After the loop the process
exits with `EXIT_SUCCESS`. -/
def main_sector_loop (action : MainAction) (env : MainEnv) :
    List Nat → (Nat → List Nat) → Nat
  | [], _ => EXIT_SUCCESS
  | s :: rest, dump =>
    match action with
    | MainAction.actRead =>
      let r := read_sector env.senv s env.unlock dump
      if r.ok then
        if !env.dumpOpenOk then EXIT_FAILURE
        else if !env.dumpWriteOk then EXIT_FAILURE
        else main_sector_loop action env rest r.dump
      else main_sector_loop action env rest r.dump
    | MainAction.actWrite =>
      let _ := write_sector env.senv s env.unlock dump
      main_sector_loop action env rest dump

/-! Concrete instances used by witnesses and counterexamples. -/

/-- An all-zero card image. -/
def zeroImage : Nat → List Nat := fun _ => List.replicate 16 0

/-- An unlock environment in which every external call succeeds. -/
def allOkUnlockEnv : UnlockEnv := ⟨true, true, true, true, true, true, true⟩

/-- An unlock environment in which only the HALT transceive fails. -/
def haltFailUnlockEnv : UnlockEnv := ⟨true, true, false, true, true, true, true⟩

/-- Guessing-mode authentication where the tag accepts every key
(so the first dictionary candidate wins). -/
def envAcceptAll : AuthEnv := ⟨true, false, zeroImage, fun _ _ => true⟩

/-- Guessing-mode authentication where the tag accepts exactly the third
dictionary candidate. -/
def envThirdKey : AuthEnv := ⟨true, false, zeroImage, fun _ k => k == keyAt 2⟩

/-- Guessing-mode authentication where the tag rejects every key. -/
def envRejectAll : AuthEnv := ⟨true, false, zeroImage, fun _ _ => false⟩

/-- A sector environment in which every external call succeeds
(failures tolerated, no magic card). -/
def envAllOk : SectorEnv :=
  ⟨true, false, allOkUnlockEnv, true, fun _ => true, fun _ => true, zeroImage,
   fun _ => true, zeroImage⟩

/-- A sector environment with failure tolerance disabled in which the
read of block 2 fails and everything else succeeds. -/
def envBlock2Fails : SectorEnv :=
  ⟨false, false, allOkUnlockEnv, true, fun _ => true, fun b => !(b == 2), zeroImage,
   fun _ => true, zeroImage⟩

/-- A sector environment (failures tolerated) in which the write of
block 5 fails and everything else succeeds. -/
def envWrite5Fails : SectorEnv :=
  ⟨true, false, allOkUnlockEnv, true, fun _ => true, fun _ => true, zeroImage,
   fun b => !(b == 5), zeroImage⟩

/-- A sector environment with failure tolerance disabled in which the
write of block 5 fails and everything else succeeds. -/
def envWrite5FailsStrict : SectorEnv :=
  ⟨false, false, allOkUnlockEnv, true, fun _ => true, fun _ => true, zeroImage,
   fun b => !(b == 5), zeroImage⟩

/-- A sector environment in which every `authenticate` call fails. -/
def envAuthFails : SectorEnv :=
  ⟨true, false, allOkUnlockEnv, true, fun _ => false, fun _ => true, zeroImage,
   fun _ => true, zeroImage⟩

/-- A main-loop environment over `envAllOk` (dump file I/O succeeds). -/
def mainEnvAllOk : MainEnv := ⟨envAllOk, false, true, true⟩

/-- A main-loop environment in which every authentication fails. -/
def mainEnvAuthFails : MainEnv := ⟨envAuthFails, false, true, true⟩

/-- A main-loop environment in which sector reads succeed but the dump
file cannot be opened afterwards. -/
def mainEnvDumpOpenFails : MainEnv := ⟨envAllOk, false, false, true⟩

/-- A block-0 buffer with UID 04 12 34 56 and a chosen BCC byte. -/
def block0With (bcc : Nat) : List Nat :=
  [0x04, 0x12, 0x34, 0x56, bcc] ++ List.replicate 11 0

/-- A dump image whose block 0 carries UID 04 12 34 56 and BCC 0x60
(the BCC value the spec claims to be correct). -/
def dumpBcc60 : Nat → List Nat :=
  fun n => if n = 0 then block0With 0x60 else List.replicate 16 0

/-- A dump image whose block 0 carries UID 04 12 34 56 and BCC 0x74
(the XOR of the four UID bytes). -/
def dumpBcc74 : Nat → List Nat :=
  fun n => if n = 0 then block0With 0x74 else List.replicate 16 0

/-! Helper lemmas. -/

theorem guessLoop_fail_store (env : AuthEnv) (b : Nat) :
    ∀ cs : List (List Nat), (guessLoop env b cs).ok = false →
      (guessLoop env b cs).store = env.mtKeys := by
  intro cs
  induction cs with
  | nil => intro _; rfl
  | cons k rest ih =>
    intro h
    by_cases hc : env.cmdOk b k = true
    · simp [guessLoop, hc] at h
    · simp only [guessLoop, hc, if_neg, Bool.false_eq_true, if_false] at h ⊢
      exact ih h

theorem authenticate_keyfile_store (env : AuthEnv) (b : Nat)
    (hf : env.bUseKeyFile = true) : (authenticate env b).store = env.mtKeys := by
  unfold authenticate
  rw [if_pos hf]
  split <;> rfl

theorem countAttempts_append (t1 t2 : List AuthEv) :
    countAttempts (t1 ++ t2) = countAttempts t1 + countAttempts t2 :=
  List.countP_append _ _ _

theorem countReselects_append (t1 t2 : List AuthEv) :
    countReselects (t1 ++ t2) = countReselects t1 + countReselects t2 :=
  List.countP_append _ _ _

theorem countAttempts_attemptReselectTrace (cs : List (List Nat)) :
    countAttempts (attemptReselectTrace cs) = cs.length := by
  induction cs with
  | nil => rfl
  | cons k rest ih =>
    simp only [attemptReselectTrace, List.flatMap_cons] at ih ⊢
    simp [countAttempts, List.countP_cons, isAttempt, countAttempts] at ih ⊢
    omega

theorem countReselects_attemptReselectTrace (cs : List (List Nat)) :
    countReselects (attemptReselectTrace cs) = cs.length := by
  induction cs with
  | nil => rfl
  | cons k rest ih =>
    simp only [attemptReselectTrace, List.flatMap_cons] at ih ⊢
    simp [countReselects, List.countP_cons, isAttempt, countReselects] at ih ⊢
    omega

theorem guessLoop_succeeds (env : AuthEnv) (b : Nat) :
    ∀ (cs : List (List Nat)) (j : Nat), j < cs.length →
      (∀ i, i < j → env.cmdOk b (cs.getD i []) = false) →
      env.cmdOk b (cs.getD j []) = true →
      guessLoop env b cs =
        ⟨true, storeKey env.bUseKeyA env.mtKeys b (cs.getD j []),
          attemptReselectTrace (cs.take j) ++ [AuthEv.attempt (cs.getD j [])]⟩ := by
  intro cs
  induction cs with
  | nil => intro j hj _ _; simp at hj
  | cons k rest ih =>
    intro j hj hfail hsucc
    cases j with
    | zero =>
      have hk : env.cmdOk b k = true := by simpa using hsucc
      simp [guessLoop, hk, attemptReselectTrace]
    | succ j' =>
      have hk : env.cmdOk b k = false := by simpa using hfail 0 (Nat.succ_pos j')
      have hrec := ih j' (by simpa using hj)
        (fun i hi => by simpa using hfail (i + 1) (Nat.succ_lt_succ hi))
        (by simpa using hsucc)
      simp only [guessLoop, hk, Bool.false_eq_true, if_false, hrec]
      simp [attemptReselectTrace, List.take_succ_cons]

theorem guessLoop_exhausts (env : AuthEnv) (b : Nat) :
    ∀ cs : List (List Nat),
      (∀ i, i < cs.length → env.cmdOk b (cs.getD i []) = false) →
      guessLoop env b cs = ⟨false, env.mtKeys, attemptReselectTrace cs⟩ := by
  intro cs
  induction cs with
  | nil => intro _; simp [guessLoop, attemptReselectTrace]
  | cons k rest ih =>
    intro hfail
    have hk : env.cmdOk b k = false := by simpa using hfail 0 (by simp)
    have hrec := ih (fun i hi => by simpa using hfail (i + 1) (by simpa using hi))
    simp [guessLoop, hk, hrec, attemptReselectTrace]

theorem authenticate_guessing (env : AuthEnv) (b : Nat) (hfile : env.bUseKeyFile = false) :
    authenticate env b = guessLoop env b keys := by
  unfold authenticate
  rw [if_neg (by simp [hfile])]

theorem guessLoop_found (env : AuthEnv) (b : Nat) (hlen : (env.mtKeys b).length = 16) :
    ∀ cs : List (List Nat), (∀ k, k ∈ cs → k.length = 6) →
      (guessLoop env b cs).ok = true →
      ∃ k, k ∈ cs ∧ env.cmdOk b k = true ∧
        (if env.bUseKeyA then keyAOf ((guessLoop env b cs).store b)
         else keyBOf ((guessLoop env b cs).store b)) = k := by
  intro cs
  induction cs with
  | nil => intro _ h; simp [guessLoop] at h
  | cons k rest ih =>
    intro hl hok
    by_cases hc : env.cmdOk b k = true
    · refine ⟨k, List.mem_cons_self k rest, hc, ?_⟩
      have hk6 : k.length = 6 := hl k (List.mem_cons_self k rest)
      simp only [guessLoop, hc, if_true, storeKey, if_pos rfl]
      cases ha : env.bUseKeyA
      · simp only [Bool.false_eq_true, if_false]
        rw [setKeyB, keyBOf]
        have h10 : (List.take 10 (env.mtKeys b)).length = 10 := by
          rw [List.length_take]; omega
        rw [List.drop_left' h10, ← hk6, List.take_length]
      · simp only [if_true]
        rw [setKeyA, keyAOf, List.take_left' hk6]
    · have hok' : (guessLoop env b rest).ok = true := by
        simpa [guessLoop, hc] using hok
      obtain ⟨k', hmem, hck, hfield⟩ :=
        ih (fun x hx => hl x (List.mem_cons_of_mem _ hx)) hok'
      refine ⟨k', List.mem_cons_of_mem _ hmem, hck, ?_⟩
      simpa [guessLoop, hc] using hfield

theorem read_sector_locked (env : SectorEnv) (iSector : Nat) (dump : Nat → List Nat) :
    read_sector env iSector false dump =
      readLoop env false
        (blockRangeDesc ((iSector + 1) * 4 - 1 + 1 - SECTOR_SIZE) ((iSector + 1) * 4 - 1))
        false 0 dump := by
  unfold read_sector
  simp

theorem blockRangeDesc_sector (s : Nat) :
    blockRangeDesc ((s + 1) * 4 - 1 + 1 - SECTOR_SIZE) ((s + 1) * 4 - 1) =
      [4 * s + 3, 4 * s + 2, 4 * s + 1, 4 * s] := by
  have h2 : (s + 1) * 4 - 1 + 1 - SECTOR_SIZE = 4 * s := by
    unfold SECTOR_SIZE; omega
  have h3 : (s + 1) * 4 - 1 = 4 * s + 3 := by omega
  rw [h2, h3]
  unfold blockRangeDesc
  have h4 : 4 * s + 3 + 1 - (4 * s) = 4 := by omega
  rw [h4, show List.range 4 = [0, 1, 2, 3] from rfl]
  simp only [List.map_cons, List.map_nil, List.cons.injEq, and_true]
  omega

theorem is_trailer_block_s3 (s : Nat) (hs : s < 32) :
    is_trailer_block (4 * s + 3) = true := by
  unfold is_trailer_block
  rw [if_pos (show 4 * s + 3 < 128 by omega)]
  simp only [beq_iff_eq]
  omega

theorem is_trailer_block_s2 (s : Nat) (hs : s < 32) :
    is_trailer_block (4 * s + 2) = false := by
  unfold is_trailer_block
  rw [if_pos (show 4 * s + 2 < 128 by omega)]
  simp only [beq_eq_false_iff_ne]
  omega

theorem write_sector0 (env : SectorEnv) (wbz : Bool) (dump : Nat → List Nat) :
    write_sector env 0 wbz dump =
      (if wbz && !(unlock_card env.magic2 env.unlockEnv).1 then ⟨false, 0, dump, []⟩
       else writeLoop env wbz dump [0, 1, 2, 3] false 0) := rfl

/-! Claim theorems. -/

/-- Claim C1 (amended): when block 0 is written (`write_block_zero`
set) on a card not flagged magic2, a block-0 buffer whose first five
bytes do not XOR to 0 makes `write_sector` return failure with no write
command issued at all; for UID 04 12 34 56 the five bytes XOR to 0
exactly when the BCC byte is 0x74, and with that BCC the writes
proceed, block 0 first. -/
theorem claim_C1 :
    (∀ (env : SectorEnv) (dump : Nat → List Nat),
      env.magic2 = false → xor5 (dump 0) ≠ 0 →
      write_sector env 0 true dump = ⟨false, 0, dump, []⟩) ∧
    (∀ (bcc : Nat) (rest : List Nat),
      xor5 (0x04 :: 0x12 :: 0x34 :: 0x56 :: bcc :: rest) = 0 ↔ bcc = 0x74) ∧
    (∀ dump : Nat → List Nat, xor5 (dump 0) = 0 →
      (write_sector envAllOk 0 true dump).ok = true ∧
      (write_sector envAllOk 0 true dump).trace =
        [SEv.evWrite 0 (dump 0), SEv.evWrite 1 (dump 1), SEv.evWrite 2 (dump 2),
         SEv.evWrite 3 (trailerData dump 3)]) := by
  refine ⟨?_, ?_, ?_⟩
  · intro env dump hm hx
    have hxb : (xor5 (dump 0) == 0) = false := by
      rw [beq_eq_false_iff_ne]; exact hx
    rw [write_sector0]
    have t0 : is_trailer_block 0 = false := rfl
    have f0 : is_first_block 0 = true := rfl
    by_cases hu : (unlock_card env.magic2 env.unlockEnv).1 = true
    · simp [hu, writeLoop, writeBody, hm, hx, hxb, t0, f0]
    · have hu' : (unlock_card env.magic2 env.unlockEnv).1 = false :=
        Bool.eq_false_iff.mpr hu
      simp [hu']
  · intro bcc rest
    unfold xor5
    simp only [List.getD_cons_zero, List.getD_cons_succ]
    rw [show ((0x04 ^^^ 0x12) ^^^ 0x34) ^^^ 0x56 = 0x74 from rfl, Nat.xor_eq_zero]
    exact eq_comm
  · intro dump hx
    have hxb : (xor5 (dump 0) == 0) = true := by rw [beq_iff_eq]; exact hx
    rw [write_sector0]
    have t0 : is_trailer_block 0 = false := rfl
    have t1 : is_trailer_block 1 = false := rfl
    have t2 : is_trailer_block 2 = false := rfl
    have t3 : is_trailer_block 3 = true := rfl
    have f0 : is_first_block 0 = true := rfl
    have f1 : is_first_block 1 = false := rfl
    have f2 : is_first_block 2 = false := rfl
    have f3 : is_first_block 3 = false := rfl
    simp [envAllOk, allOkUnlockEnv, unlock_card, writeLoop, writeBody, hx, hxb,
      t0, t1, t2, t3, f0, f1, f2, f3]

/-- Witness for claim C1: a dump whose block 0 has UID 04 12 34 56 and
BCC 0x60 aborts with no command issued; one with BCC 0x74 passes. -/
theorem claim_C1_witness :
    write_sector envAllOk 0 true dumpBcc60 = ⟨false, 0, dumpBcc60, []⟩ ∧
    (xor5 (0x04 :: 0x12 :: 0x34 :: 0x56 :: 0x74 :: List.replicate 11 0) = 0 ↔
      (0x74 : Nat) = 0x74) ∧
    (write_sector envAllOk 0 true dumpBcc74).ok = true :=
  ⟨claim_C1.1 envAllOk dumpBcc60 rfl (by decide),
   claim_C1.2.1 0x74 (List.replicate 11 0),
   (claim_C1.2.2 dumpBcc74 (by decide)).1⟩

/-- Counterexample to claim C1 as stated: for UID 04 12 34 56 the BCC
byte 0x60 does not pass the check — the XOR of the five bytes is 0x14,
so `write_sector` aborts before issuing any write (the correct BCC is
0x74, not 0x60). -/
theorem claim_C1_counterexample :
    xor5 (block0With 0x60) = 0x14 ∧
    (write_sector envAllOk 0 true dumpBcc60).ok = false ∧
    (write_sector envAllOk 0 true dumpBcc60).trace = [] := by
  decide

/-- Claim C8: a locked read of sector 0 authenticates exactly once, at
block 3 (the trailer), and issues the block reads in descending order
3, 2, 1, 0. -/
theorem claim_C8 : ∀ (env : SectorEnv) (dump : Nat → List Nat),
    (∀ b, env.authOk b = true) → (∀ b, env.readOk b = true) →
    (read_sector env 0 false dump).ok = true ∧
    (read_sector env 0 false dump).trace =
      [SEv.evAuth 3, SEv.evRead 3, SEv.evRead 2, SEv.evRead 1, SEv.evRead 0] := by
  intro env dump hA hR
  rw [read_sector_locked, blockRangeDesc_sector 0]
  have t3 : is_trailer_block 3 = true := rfl
  have n2 : is_trailer_block 2 = false := rfl
  have n1 : is_trailer_block 1 = false := rfl
  have n0 : is_trailer_block 0 = false := rfl
  simp [readLoop, t3, n2, n1, n0, hA 3, hR 3, hR 2, hR 1, hR 0]

/-- Witness for claim C8 in the all-success environment. -/
theorem claim_C8_witness :
    (read_sector envAllOk 0 false zeroImage).ok = true ∧
    (read_sector envAllOk 0 false zeroImage).trace =
      [SEv.evAuth 3, SEv.evRead 3, SEv.evRead 2, SEv.evRead 1, SEv.evRead 0] :=
  claim_C8 envAllOk zeroImage (fun _ => rfl) (fun _ => rfl)

/-- Claim C7: with failure tolerance disabled, when the trailer of a
4-block sector authenticates and reads fine but the next block
(4s + 2) fails to read, `read_sector` aborts at once: no read is issued
for the two lower blocks and the sector read reports failure. -/
theorem claim_C7 : ∀ (env : SectorEnv) (dump : Nat → List Nat) (s : Nat),
    s < 32 →
    env.bTolerateFailures = false →
    env.authOk (4 * s + 3) = true →
    env.readOk (4 * s + 3) = true →
    env.readOk (4 * s + 2) = false →
    (read_sector env s false dump).ok = false ∧
    (read_sector env s false dump).trace =
      [SEv.evAuth (4 * s + 3), SEv.evRead (4 * s + 3), SEv.evRead (4 * s + 2)] := by
  intro env dump s hs ht hA hR3 hR2
  rw [read_sector_locked, blockRangeDesc_sector s]
  simp [readLoop, is_trailer_block_s3 s hs, is_trailer_block_s2 s hs, ht, hA, hR3, hR2]

/-- Witness for claim C7: sector 0 with the read of block 2 failing. -/
theorem claim_C7_witness :
    (read_sector envBlock2Fails 0 false zeroImage).ok = false ∧
    (read_sector envBlock2Fails 0 false zeroImage).trace =
      [SEv.evAuth 3, SEv.evRead 3, SEv.evRead 2] :=
  claim_C7 envBlock2Fails zeroImage 0 (by decide) rfl rfl rfl rfl

/-- Claim C3 (amended): once a write failure has occurred within an
authenticated group and failures are tolerated, every subsequent
non-trailer block of that group is skipped without a write command —
but the trailer block of the group is still written (the source's
trailer branch does not consult `bFailure`); an untolerated failure
makes `write_sector`'s loop return failure immediately. -/
theorem claim_C3 :
    (∀ (env : SectorEnv) (wbz : Bool) (dump : Nat → List Nat) (bs : List Nat) (cnt : Nat),
      env.bTolerateFailures = true →
      (∀ b, b ∈ bs → is_first_block b = false) →
      writeLoop env wbz dump bs true cnt =
        ⟨true, cnt, dump,
          bs.filterMap (fun b =>
            if is_trailer_block b then some (SEv.evWrite b (trailerData dump b))
            else none)⟩) ∧
    (∀ (env : SectorEnv) (wbz : Bool) (dump : Nat → List Nat) (b : Nat) (rest : List Nat)
        (cnt : Nat),
      env.bTolerateFailures = false →
      is_first_block b = false → is_trailer_block b = false → b ≠ 0 →
      env.writeOk b = false →
      writeLoop env wbz dump (b :: rest) false cnt =
        ⟨false, cnt, dump, [SEv.evWrite b (dump b)]⟩) := by
  constructor
  · intro env wbz dump bs
    induction bs with
    | nil => intro cnt ht hnf; simp [writeLoop]
    | cons b rest ih =>
      intro cnt ht hnf
      have hb : is_first_block b = false := hnf b (List.mem_cons_self b rest)
      have hb0 : (b == 0) = false := by
        rcases eq_or_ne b 0 with h | h
        · subst h; exact absurd hb (by decide)
        · simp [h]
      have hrec := ih cnt ht (fun x hx => hnf x (List.mem_cons_of_mem _ hx))
      by_cases hT : is_trailer_block b = true
      · by_cases hw : env.writeOk b = true
        · simp [writeLoop, writeBody, hb, hb0, hT, hw, ht, hrec, List.filterMap_cons]
        · simp [writeLoop, writeBody, hb, hb0, hT, hw, ht, hrec, List.filterMap_cons]
      · have hT' : is_trailer_block b = false := Bool.eq_false_iff.mpr hT
        simp [writeLoop, writeBody, hb, hb0, hT', ht, hrec, List.filterMap_cons]
  · intro env wbz dump b rest cnt ht hfb hT hb0 hw
    have hb0' : (b == 0) = false := by simp [hb0]
    simp [writeLoop, writeBody, hfb, hT, hb0', hw, ht]

/-- Witness for claim C3: entering a group remainder [5, 6, 7] with a
pending failure (failures tolerated) skips the data blocks but still
writes trailer 7; with tolerance off, a failing write of block 5
aborts immediately. -/
theorem claim_C3_witness :
    writeLoop envWrite5Fails false zeroImage [5, 6, 7] true 1 =
      ⟨true, 1, zeroImage,
        [5, 6, 7].filterMap (fun b =>
          if is_trailer_block b then some (SEv.evWrite b (trailerData zeroImage b))
          else none)⟩ ∧
    writeLoop envWrite5FailsStrict false zeroImage [5, 6, 7] false 0 =
      ⟨false, 0, zeroImage, [SEv.evWrite 5 (zeroImage 5)]⟩ :=
  ⟨claim_C3.1 envWrite5Fails false zeroImage [5, 6, 7] 1 rfl (by decide),
   claim_C3.2 envWrite5FailsStrict false zeroImage 5 [6, 7] 0 rfl (by decide) (by decide)
     (by decide) rfl⟩

/-- Counterexample to claim C3 as stated: writing sector 1 with the
write of block 5 failing (failures tolerated), block 6 is skipped but
the trailer block 7 is still written — its write command appears in the
trace — so the trailer is not skipped after an in-group failure. -/
theorem claim_C3_counterexample :
    (write_sector envWrite5Fails 1 false zeroImage).ok = true ∧
    (write_sector envWrite5Fails 1 false zeroImage).trace =
      [SEv.evAuth 4, SEv.evWrite 4 (zeroImage 4), SEv.evWrite 5 (zeroImage 5),
       SEv.evWrite 7 (trailerData zeroImage 7)] := by
  decide

/-- Claim C9: `is_trailer_block` agrees with `(b+1) % 4 == 0` on block
indices up to 128 and with `(b+1) % 16 == 0` from 128 on, and for every
valid first block `f`, `get_trailer_block f` is a trailer block lying in
the sector containing `f`. -/
theorem claim_C9 :
    (∀ b, b ≤ 128 → is_trailer_block b = ((b + 1) % 4 == 0)) ∧
    (∀ b, 128 ≤ b → is_trailer_block b = ((b + 1) % 16 == 0)) ∧
    (∀ f, is_first_block f = true →
      is_trailer_block (get_trailer_block f) = true ∧
      sector_of_block (get_trailer_block f) = sector_of_block f) := by
  refine ⟨?_, ?_, ?_⟩
  · intro b hb
    rcases Nat.lt_or_ge b 128 with h | h
    · simp [is_trailer_block, h]
    · have hb' : b = 128 := by omega
      subst hb'; decide
  · intro b hb
    have h : ¬ b < 128 := by omega
    simp [is_trailer_block, h]
  · intro f _
    by_cases h : f < 128
    · have hlt : f + (3 - f % 4) < 128 := by omega
      constructor
      · simp [get_trailer_block, is_trailer_block, h, hlt]
        omega
      · simp [get_trailer_block, sector_of_block, h, hlt]
        omega
    · have hge : ¬ f + (15 - f % 16) < 128 := by omega
      constructor
      · simp [get_trailer_block, is_trailer_block, h, hge]
        omega
      · simp [get_trailer_block, sector_of_block, h, hge]
        omega

/-- Witness for claim C9 at concrete inputs b = 7, b = 200, f = 8. -/
theorem claim_C9_witness :
    is_trailer_block 7 = ((7 + 1) % 4 == 0) ∧
    is_trailer_block 200 = ((200 + 1) % 16 == 0) ∧
    (is_trailer_block (get_trailer_block 8) = true ∧
      sector_of_block (get_trailer_block 8) = sector_of_block 8) :=
  ⟨claim_C9.1 7 (by decide), claim_C9.2.1 200 (by decide), claim_C9.2.2 8 (by decide)⟩

/-- Claim C10: when `authenticate` returns false the key image
`mtKeys` is left unchanged: keys are only recorded on the success path
of the guessing loop. -/
theorem claim_C10 : ∀ (env : AuthEnv) (b : Nat),
    (authenticate env b).ok = false → (authenticate env b).store = env.mtKeys := by
  intro env b h
  cases hf : env.bUseKeyFile
  · unfold authenticate at h ⊢
    rw [if_neg (by simp [hf])] at h ⊢
    exact guessLoop_fail_store env b keys h
  · exact authenticate_keyfile_store env b hf

/-- Witness for claim C10: a guessing run in which the tag rejects every
candidate leaves the key image untouched. -/
theorem claim_C10_witness :
    (authenticate envRejectAll 0).store = envRejectAll.mtKeys :=
  claim_C10 envRejectAll 0 (by decide)

/-- Claim C6: in guessing mode, when the tag accepts the k-th candidate
of the dictionary, `authenticate` issues exactly k AUTH attempts and
k - 1 intervening anticollision re-selects, returns success, and
records the k-th key in the key image for that block and key type;
when every candidate is rejected it returns failure. -/
theorem claim_C6 :
    (∀ (env : AuthEnv) (b k : Nat), env.bUseKeyFile = false →
      0 < k → k ≤ num_keys →
      (∀ i, i < k - 1 → env.cmdOk b (keyAt i) = false) →
      env.cmdOk b (keyAt (k - 1)) = true →
      (authenticate env b).ok = true ∧
      countAttempts (authenticate env b).trace = k ∧
      countReselects (authenticate env b).trace = k - 1 ∧
      (authenticate env b).store b =
        (if env.bUseKeyA then setKeyA (env.mtKeys b) (keyAt (k - 1))
         else setKeyB (env.mtKeys b) (keyAt (k - 1)))) ∧
    (∀ (env : AuthEnv) (b : Nat), env.bUseKeyFile = false →
      (∀ i, i < num_keys → env.cmdOk b (keyAt i) = false) →
      (authenticate env b).ok = false) := by
  constructor
  · intro env b k hfile hk0 hk9 hfail hsucc
    have hlen : keys.length = 9 := rfl
    have hnum : num_keys = 9 := rfl
    have hj : k - 1 < keys.length := by omega
    have hg := guessLoop_succeeds env b keys (k - 1) hj hfail hsucc
    rw [authenticate_guessing env b hfile, hg]
    have htake : (keys.take (k - 1)).length = k - 1 := by
      rw [List.length_take]; omega
    refine ⟨rfl, ?_, ?_, ?_⟩
    · show countAttempts
        (attemptReselectTrace (keys.take (k - 1)) ++ [AuthEv.attempt (keyAt (k - 1))]) = k
      rw [countAttempts_append, countAttempts_attemptReselectTrace, htake]
      have h1 : countAttempts [AuthEv.attempt (keyAt (k - 1))] = 1 := rfl
      rw [h1]; omega
    · show countReselects
        (attemptReselectTrace (keys.take (k - 1)) ++ [AuthEv.attempt (keyAt (k - 1))]) = k - 1
      rw [countReselects_append, countReselects_attemptReselectTrace, htake]
      have h0 : countReselects [AuthEv.attempt (keyAt (k - 1))] = 0 := rfl
      rw [h0]; omega
    · show storeKey env.bUseKeyA env.mtKeys b (keyAt (k - 1)) b = _
      simp [storeKey]
  · intro env b hfile hfail
    rw [authenticate_guessing env b hfile, guessLoop_exhausts env b keys hfail]

/-- Witness for claim C6: the tag accepts the third candidate, so three
attempts and two re-selects happen and the third key is recorded. -/
theorem claim_C6_witness :
    (authenticate envThirdKey 5).ok = true ∧
    countAttempts (authenticate envThirdKey 5).trace = 3 ∧
    countReselects (authenticate envThirdKey 5).trace = 2 ∧
    (authenticate envThirdKey 5).store 5 =
      (if envThirdKey.bUseKeyA then setKeyA (envThirdKey.mtKeys 5) (keyAt 2)
       else setKeyB (envThirdKey.mtKeys 5) (keyAt 2)) :=
  claim_C6.1 envThirdKey 5 3 rfl (by decide) (by decide) (by decide) (by decide)

/-- Claim C2 (amended): a successful key-guessing authentication at
block b records the discovered dictionary key in the KeyStore slot of
block b itself — which is the trailer slot exactly when `authenticate`
was invoked at a trailer block, as `read_sector` does. -/
theorem claim_C2 : ∀ (env : AuthEnv) (b : Nat),
    env.bUseKeyFile = false → (env.mtKeys b).length = 16 →
    (authenticate env b).ok = true →
    ∃ k, k ∈ keys ∧ env.cmdOk b k = true ∧
      (if env.bUseKeyA then keyAOf ((authenticate env b).store b)
       else keyBOf ((authenticate env b).store b)) = k := by
  intro env b hfile hlen hok
  rw [authenticate_guessing env b hfile] at hok ⊢
  exact guessLoop_found env b hlen keys (by decide) hok

/-- Witness for claim C2 at block 3 (the trailer of sector 0). -/
theorem claim_C2_witness :
    ∃ k, k ∈ keys ∧ envAcceptAll.cmdOk 3 k = true ∧
      (if envAcceptAll.bUseKeyA then keyAOf ((authenticate envAcceptAll 3).store 3)
       else keyBOf ((authenticate envAcceptAll 3).store 3)) = k :=
  claim_C2 envAcceptAll 3 rfl (by decide) (by decide)

/-- Counterexample to claim C2 as stated: a successful guessing
authentication at block 4 (a first block — `write_sector` authenticates
at first blocks) records the discovered key `keyAt 0` at slot 4, while
the KeyStore slot of the trailer block of the containing sector
(`get_trailer_block 4 = 7`) is left all-zero, so the discovered key is
not written into the trailer slot. -/
theorem claim_C2_counterexample :
    (authenticate envAcceptAll 4).ok = true ∧
    (authenticate envAcceptAll 4).trace = [AuthEv.attempt (keyAt 0)] ∧
    keyAOf ((authenticate envAcceptAll 4).store 4) = keyAt 0 ∧
    (authenticate envAcceptAll 4).store (get_trailer_block 4) = List.replicate 16 0 ∧
    keyAOf (List.replicate 16 0) ≠ keyAt 0 := by
  decide

/-- Claim C4 (amended): once the sector loop of `main` is reached, a
failed sector operation does not make the exit code non-zero: the
result of `write_sector` is discarded and a failed `read_sector` merely
skips the dump-file write, so the process exits 0 regardless of sector
outcomes; a non-zero exit arises in the loop only when a successful
sector read cannot be persisted to the dump file. -/
theorem claim_C4 :
    (∀ (env : MainEnv) (sectors : List Nat) (dump : Nat → List Nat),
      main_sector_loop MainAction.actWrite env sectors dump = EXIT_SUCCESS) ∧
    (∀ (env : MainEnv) (sectors : List Nat) (dump : Nat → List Nat),
      env.dumpOpenOk = true → env.dumpWriteOk = true →
      main_sector_loop MainAction.actRead env sectors dump = EXIT_SUCCESS) ∧
    (∀ (env : MainEnv) (s : Nat) (rest : List Nat) (dump : Nat → List Nat),
      (read_sector env.senv s env.unlock dump).ok = true →
      env.dumpOpenOk = false →
      main_sector_loop MainAction.actRead env (s :: rest) dump = EXIT_FAILURE) := by
  refine ⟨?_, ?_, ?_⟩
  · intro env sectors
    induction sectors with
    | nil => intro dump; rfl
    | cons s rest ih => intro dump; simp [main_sector_loop, ih]
  · intro env sectors
    induction sectors with
    | nil => intro dump _ _; rfl
    | cons s rest ih =>
      intro dump hopen hwrite
      by_cases h : (read_sector env.senv s env.unlock dump).ok = true
      · simp [main_sector_loop, h, hopen, hwrite, ih _ hopen hwrite]
      · simp [main_sector_loop, Bool.eq_false_iff.mpr h, ih _ hopen hwrite]
  · intro env s rest dump hok hopen
    simp [main_sector_loop, hok, hopen]

/-- Witness for claim C4: with dump-file I/O succeeding the loop exits
0 for both actions, and a dump-open failure after a successful read
exits non-zero. -/
theorem claim_C4_witness :
    main_sector_loop MainAction.actWrite mainEnvAllOk [0, 1] zeroImage = EXIT_SUCCESS ∧
    main_sector_loop MainAction.actRead mainEnvAllOk [0, 1] zeroImage = EXIT_SUCCESS ∧
    main_sector_loop MainAction.actRead mainEnvDumpOpenFails [0] zeroImage = EXIT_FAILURE :=
  ⟨claim_C4.1 mainEnvAllOk [0, 1] zeroImage,
   claim_C4.2.1 mainEnvAllOk [0, 1] zeroImage rfl rfl,
   claim_C4.2.2 mainEnvDumpOpenFails 0 [] zeroImage (by decide) rfl⟩

/-- Counterexample to claim C4 as stated: in a run where every
authentication fails, `read_sector` fails — yet the sector loop of
`main` still exits with code 0, for the read action as well as for the
write action, so an authentication failure or a tag removal inside a
sector operation does not produce a non-zero exit code. -/
theorem claim_C4_counterexample :
    (read_sector mainEnvAuthFails.senv 0 false zeroImage).ok = false ∧
    main_sector_loop MainAction.actRead mainEnvAuthFails [0] zeroImage = EXIT_SUCCESS ∧
    main_sector_loop MainAction.actWrite mainEnvAuthFails [0] zeroImage = EXIT_SUCCESS := by
  decide

/-- Claim C5 (amended): `unlock_card` fails immediately, with no
external call at all, on a magic2 card; otherwise it succeeds exactly
when the four configuration steps and the two unlock transceives
succeed — the outcome of the HALT transceive is ignored. -/
theorem claim_C5 : ∀ (magic2 : Bool) (env : UnlockEnv),
    (unlock_card magic2 env).1 =
      (!magic2 && (env.crcOffOk && env.framingOffOk && env.unlock1Ok && env.unlock2Ok &&
        env.crcOnOk && env.framingOnOk)) ∧
    (magic2 = true → unlock_card magic2 env = (false, [])) := by
  intro m env
  rcases env with ⟨c0, f0, ht, u1, u2, c1, f1⟩
  cases m <;> cases c0 <;> cases f0 <;> cases u1 <;> cases u2 <;> cases c1 <;> cases f1 <;>
    simp [unlock_card]

/-- Witness for claim C5: on a magic2 card `unlock_card` reports failure
with an empty call trace. -/
theorem claim_C5_witness : unlock_card true allOkUnlockEnv = (false, []) :=
  (claim_C5 true allOkUnlockEnv).2 rfl

/-- Counterexample to claim C5 as stated: in a run where the HALT
transceive fails but every other call succeeds, `unlock_card` still
returns success, so a HALT failure does not abort the sequence. -/
theorem claim_C5_counterexample :
    haltFailUnlockEnv.haltOk = false ∧ (unlock_card false haltFailUnlockEnv).1 = true := by
  decide

end NfcMfra
